import Mathlib

/-!
Shallow embedding of KubeArmor/core/crioHandler.go: the CRI-O container
handler of the KubeArmor daemon.  Go maps from container IDs to container
records are modelled as association lists with unique keys; the Go set
map[string]struct\x7b\x7d is modelled as a duplicate free list of IDs,
whose order stands for the unspecified Go map iteration order, with set
statements over List.toFinset; machine integers
(uint32 namespace inodes, int policy flag) are modelled as Nat and Int,
which is exact here because no claim involves overflow.
-/

namespace Crio

/-- Errors returned by Go functions are modelled as strings. -/
abbrev GoError := String

/-- Container corresponds to tp.Container from KubeArmor types, restricted
to the fields read or written by crioHandler.go. -/
structure Container where
  ContainerID : String
  ContainerName : String
  ContainerImage : String
  AppArmorProfile : String
  MergedDir : String
  NamespaceName : String
  EndPointName : String
  Labels : String
  PidNS : Nat
  MntNS : Nat
  PolicyEnabled : Int
  ProcessVisibilityEnabled : Bool
  FileVisibilityEnabled : Bool
  NetworkVisibilityEnabled : Bool
  CapabilitiesVisibilityEnabled : Bool
deriving DecidableEq, Repr

/-- EndPoint corresponds to tp.EndPoint restricted to the fields read or
written by crioHandler.go: the pod identity and the two linkage lists. -/
structure EndPoint where
  NamespaceName : String
  EndPointName : String
  Containers : List String
  AppArmorProfiles : List String
deriving DecidableEq, Repr

/-- DaemonState is the part of KubeArmorDaemon touched by
UpdateCrioContainer: the Containers map (association list with unique
keys) and the ordered EndPoints collection. -/
structure DaemonState where
  Containers : List (String × Container)
  EndPoints : List EndPoint
deriving DecidableEq, Repr

/-- CrioHandler keeps the tracked container ID set (field containers of
the Go CrioHandler struct, a map with empty values).  The set is modelled
as a duplicate free list; the list order stands for the unspecified Go
map iteration order. -/
structure CrioHandler where
  containers : List String
deriving DecidableEq

/-- MonitorState is the state carried across one cycle of
MonitorCrioEvents: the handler with its tracked ID set, and the daemon
registry. -/
structure MonitorState where
  crio : CrioHandler
  daemon : DaemonState
deriving DecidableEq

/-- Lookup in the Containers map, Go expression dm.Containers[k]. -/
def mapLookup : List (String × Container) → String → Option Container
  | [], _ => none
  | (k2, v) :: rest, k => if k2 = k then some v else mapLookup rest k

/-- Assignment dm.Containers[k] = v on a Go map: replace the value if the
key is present, append the binding otherwise. -/
def mapInsert : List (String × Container) → String → Container → List (String × Container)
  | [], k, v => [(k, v)]
  | (k2, v2) :: rest, k, v =>
    if k2 = k then (k, v) :: rest else (k2, v2) :: mapInsert rest k v

/-- Go delete(dm.Containers, k): drop every binding of the key (at most
one exists, keys being unique). -/
def mapErase : List (String × Container) → String → List (String × Container)
  | [], _ => []
  | (k2, v2) :: rest, k =>
    if k2 = k then mapErase rest k else (k2, v2) :: mapErase rest k

/-- The endpoint loop of UpdateCrioContainer walks dm.EndPoints, applies
the body to the first endpoint whose (NamespaceName, EndPointName) pair
matches, and breaks. -/
def updateFirstMatching (f : EndPoint → EndPoint) : List EndPoint → String → String → List EndPoint
  | [], _, _ => []
  | ep :: rest, ns, en =>
    if ep.NamespaceName = ns ∧ ep.EndPointName = en then f ep :: rest
    else ep :: updateFirstMatching f rest ns en

/-- First endpoint whose (NamespaceName, EndPointName) matches; mirrors
the search order of the endpoint loops in UpdateCrioContainer. -/
def findMatchingEndPoint : List EndPoint → String → String → Option EndPoint
  | [], _, _ => none
  | ep :: rest, ns, en =>
    if ep.NamespaceName = ns ∧ ep.EndPointName = en then some ep
    else findMatchingEndPoint rest ns en

/-- Body of the endpoint loop on the start path (lines 240 to 248 of
crioHandler.go): append the container ID to Containers if absent and the
AppArmor profile to AppArmorProfiles if absent, kl.ContainsElement being
list membership. -/
def linkOne (c : Container) (ep : EndPoint) : EndPoint :=
  { ep with
    Containers :=
      if c.ContainerID ∈ ep.Containers then ep.Containers
      else ep.Containers ++ [c.ContainerID]
    AppArmorProfiles :=
      if c.AppArmorProfile ∈ ep.AppArmorProfiles then ep.AppArmorProfiles
      else ep.AppArmorProfiles ++ [c.AppArmorProfile] }

/-- The endpoint loop of the start path: update the first matching
endpoint with linkOne, leave the rest unchanged. -/
def linkEndpoint (eps : List EndPoint) (c : Container) : List EndPoint :=
  updateFirstMatching (linkOne c) eps c.NamespaceName c.EndPointName

/-- Inner loops of the destroy path (lines 279 to 292 of crioHandler.go):
remove the first element equal to the given one, then break; nothing is
removed when no element matches. -/
def removeFirst : List String → String → List String
  | [], _ => []
  | x :: xs, y => if x = y then xs else x :: removeFirst xs y

/-- Body of the endpoint loop on the destroy path: drop the first
occurrence of the container ID from Containers and, separately, the first
occurrence of its AppArmor profile from AppArmorProfiles. -/
def unlinkOne (c : Container) (ep : EndPoint) : EndPoint :=
  { ep with
    Containers := removeFirst ep.Containers c.ContainerID,
    AppArmorProfiles := removeFirst ep.AppArmorProfiles c.AppArmorProfile }

/-- The endpoint loop of the destroy path: update the first matching
endpoint with unlinkOne, leave the rest unchanged. -/
def unlinkEndpoint (eps : List EndPoint) (c : Container) : List EndPoint :=
  updateFirstMatching (unlinkOne c) eps c.NamespaceName c.EndPointName

/-- Field copy performed on the re-resolve branch of the start path
(lines 220 to 232): the fetched record adopts ownership linkage, labels,
name, image, and policy and visibility flags from the existing record,
keeping its own AppArmorProfile, MergedDir, PidNS and MntNS. -/
def mergeExisting (ex c : Container) : Container :=
  { c with
    NamespaceName := ex.NamespaceName,
    EndPointName := ex.EndPointName,
    Labels := ex.Labels,
    ContainerName := ex.ContainerName,
    ContainerImage := ex.ContainerImage,
    PolicyEnabled := ex.PolicyEnabled,
    ProcessVisibilityEnabled := ex.ProcessVisibilityEnabled,
    FileVisibilityEnabled := ex.FileVisibilityEnabled,
    NetworkVisibilityEnabled := ex.NetworkVisibilityEnabled,
    CapabilitiesVisibilityEnabled := ex.CapabilitiesVisibilityEnabled }

/-- Start path of UpdateCrioContainer (action is the string start, lines
204 to 264 of crioHandler.go).  The result of GetContainerInfo is passed
in as fetched.  On a fetch error, or when the fetched ContainerID is
empty, the call returns false without touching the state.  When the ID is
absent from the Containers map the record is inserted and true returned;
note the Go code updates no endpoint on this branch.  When the ID is
present with both namespace fields zero, the merged record replaces the
stored one, the first matching endpoint is linked, and true is returned.
Otherwise false is returned with no mutation. -/
def UpdateCrioContainerStart (dm : DaemonState) (fetched : Except GoError Container) :
    DaemonState × Bool :=
  match fetched with
  | Except.error _ => (dm, false)
  | Except.ok c =>
    if c.ContainerID = "" then (dm, false)
    else
      match mapLookup dm.Containers c.ContainerID with
      | none =>
        ({ dm with Containers := mapInsert dm.Containers c.ContainerID c }, true)
      | some ex =>
        if ex.PidNS = 0 ∧ ex.MntNS = 0 then
          let merged := mergeExisting ex c
          ({ Containers := mapInsert dm.Containers c.ContainerID merged,
             EndPoints := linkEndpoint dm.EndPoints merged }, true)
        else (dm, false)

/-- Destroy path of UpdateCrioContainer (action is the string destroy,
lines 265 to 305 of crioHandler.go).  An untracked ID returns false with
no mutation; otherwise the record is removed from the map, the first
matching endpoint is unlinked, and true is returned. -/
def UpdateCrioContainerDestroy (dm : DaemonState) (containerID : String) :
    DaemonState × Bool :=
  match mapLookup dm.Containers containerID with
  | none => (dm, false)
  | some container =>
    ({ Containers := mapErase dm.Containers containerID,
       EndPoints := unlinkEndpoint dm.EndPoints container }, true)

/-- UpdateCrioContainer dispatch: nil Crio handler returns false, the
start and destroy actions run their paths, any other action falls through
to return true. -/
def UpdateCrioContainer (crioPresent : Bool) (dm : DaemonState) (containerID : String)
    (action : String) (fetched : Except GoError Container) : DaemonState × Bool :=
  if crioPresent = false then (dm, false)
  else if action = "start" then UpdateCrioContainerStart dm fetched
  else if action = "destroy" then UpdateCrioContainerDestroy dm containerID
  else (dm, true)

/-- GetCrioContainers (lines 152 to 167 of crioHandler.go).  The RPC
result of ListContainers is passed in; on success the IDs are collected
into a fresh set.  The Go function declares var err error, initially nil,
and then binds a NEW err in the short variable declaration of the if
which shadows the outer variable; the final return nil, err therefore
reads the outer, never assigned err and returns nil even when the RPC
failed. -/
def GetCrioContainers (rpc : Except GoError (List String)) :
    Option (List String) × Option GoError :=
  let err : Option GoError := none
  match rpc with
  | Except.ok containerList => (some containerList.dedup, none)
  | Except.error _ => (none, err)

/-- GetNewCrioContainers (lines 170 to 180): the live IDs absent from the
tracked set.  Reads ch.containers and writes nothing. -/
def GetNewCrioContainers (ch : CrioHandler) (containers : List String) : List String :=
  containers.filter (fun id => decide (id ∉ ch.containers))

/-- GetDeletedCrioContainers (lines 183 to 196): collects the tracked IDs
absent from the live set, and then REPLACES ch.containers with the live
set (the assignment ch.containers = containers at line 193).  The second
component is the handler state after the call. -/
def GetDeletedCrioContainers (ch : CrioHandler) (containers : List String) :
    List String × CrioHandler :=
  (ch.containers.filter (fun id => decide (id ∉ containers)), { containers := containers })

/-- Outcome of one cycle of MonitorCrioEvents: stopped is the return on a
non nil error from GetCrioContainers, slept is the continue of the equal
cardinality short circuit, processed is a full diff cycle. -/
inductive CycleResult where
  | stopped : CycleResult
  | slept : MonitorState → CycleResult
  | processed : MonitorState → CycleResult
deriving DecidableEq

/-- One cycle of the polling loop of MonitorCrioEvents (lines 328 to 362).
The RPC result and a fetch oracle standing for GetContainerInfo are
passed in.  The cycle stops when the error returned by GetCrioContainers
is non nil; it sleeps without any further work when the live cardinality
equals the tracked cardinality; otherwise it starts each new container
(collecting the IDs whose start returned false as invalid), removes the
invalid IDs from the tracked set adopted by GetDeletedCrioContainers, and
destroys each deleted container.  The folds run in the list order that
stands for the unspecified Go map iteration order. -/
def MonitorCycle (s : MonitorState) (rpc : Except GoError (List String))
    (fetch : String → Except GoError Container) : CycleResult :=
  let r := GetCrioContainers rpc
  if (r.2).isSome then CycleResult.stopped
  else
    let live := (r.1).getD []
    if live.length = s.crio.containers.length then CycleResult.slept s
    else
      let newIDs := GetNewCrioContainers s.crio live
      let d := GetDeletedCrioContainers s.crio live
      let p := newIDs.foldl
        (fun acc id =>
          let u := UpdateCrioContainerStart acc.1 (fetch id)
          (u.1, if u.2 then acc.2 else acc.2 ++ [id]))
        (s.daemon, ([] : List String))
      let tracked2 := (d.2).containers.filter (fun id => decide (id ∉ p.2))
      let dmFinal := (d.1).foldl
        (fun dm id => (UpdateCrioContainerDestroy dm id).1) p.1
      CycleResult.processed { crio := { containers := tracked2 }, daemon := dmFinal }

/-- No binding of the Containers map uses the empty string as key. -/
def NoEmptyKey (m : List (String × Container)) : Prop :=
  ∀ p ∈ m, p.1 ≠ ""

instance (m : List (String × Container)) : Decidable (NoEmptyKey m) := by
  unfold NoEmptyKey; infer_instance

/-- Container record with every field at its zero value; concrete test
records below override the fields they need. -/
def contDefault : Container :=
  { ContainerID := "", ContainerName := "", ContainerImage := "", AppArmorProfile := "",
    MergedDir := "", NamespaceName := "Unknown", EndPointName := "Unknown", Labels := "",
    PidNS := 0, MntNS := 0, PolicyEnabled := 0, ProcessVisibilityEnabled := false,
    FileVisibilityEnabled := false, NetworkVisibilityEnabled := false,
    CapabilitiesVisibilityEnabled := false }

/-- Concrete endpoint for the fresh insert scenario: pod pod1 in
namespace default with no linked containers yet. -/
def epCex1 : EndPoint := ⟨"default", "pod1", [], []⟩

/-- Concrete fetched record whose pod matches epCex1 and whose ID is
absent from the map. -/
def contCex1 : Container :=
  { contDefault with
    ContainerID := "c1", NamespaceName := "default",
    EndPointName := "pod1", AppArmorProfile := "prof1", PidNS := 101, MntNS := 102 }

/-- Daemon state with an empty container map and the single endpoint
epCex1. -/
def dmCex1 : DaemonState := ⟨[], [epCex1]⟩

/-- Stored record with unresolved namespaces for the completion
scenario. -/
def exW1 : Container :=
  { contDefault with
    ContainerID := "c1", NamespaceName := "default",
    EndPointName := "pod1", ContainerName := "web", Labels := "app=web", PolicyEnabled := 1 }

/-- Endpoint owning exW1. -/
def epW1 : EndPoint := ⟨"default", "pod1", [], []⟩

/-- Daemon state holding exW1 and epW1. -/
def dmW1 : DaemonState := ⟨[("c1", exW1)], [epW1]⟩

/-- Freshly fetched record completing exW1. -/
def cW1 : Container :=
  { contDefault with
    ContainerID := "c1", NamespaceName := "default",
    EndPointName := "pod1", AppArmorProfile := "prof1", MergedDir := "/m",
    PidNS := 7, MntNS := 8 }

/-- Fully resolved record tracked while the RPC fails. -/
def contA2 : Container :=
  { contDefault with
    ContainerID := "a", NamespaceName := "default",
    EndPointName := "pod1", PidNS := 1, MntNS := 1 }

/-- Daemon registry holding contA2. -/
def dmA2 : DaemonState := ⟨[("a", contA2)], []⟩

/-- Monitor state tracking the single ID a, paired with dmA2. -/
def sC2 : MonitorState := ⟨⟨["a"]⟩, dmA2⟩

/-- Fetch oracle used on cycles that start no container. -/
def fetchNone : String → Except GoError Container := fun _ => Except.error "unused"

/-- Stored record with resolved namespaces for the write once scenario. -/
def stW3 : Container := { contDefault with
    ContainerID := "c1", PidNS := 5, MntNS := 6 }

/-- Daemon state holding stW3. -/
def dmW3 : DaemonState := ⟨[("c1", stW3)], []⟩

/-- Later fetched record carrying different namespace values. -/
def cW3 : Container :=
  { contDefault with
    ContainerID := "c1", PidNS := 9, MntNS := 10, AppArmorProfile := "newprof" }

/-- Stored record with metadata set but namespaces unresolved. -/
def exW4 : Container :=
  { contDefault with
    ContainerID := "c1", NamespaceName := "default",
    EndPointName := "pod1", ContainerName := "web", ContainerImage := "nginx",
    Labels := "app=web", PolicyEnabled := 1, ProcessVisibilityEnabled := true,
    FileVisibilityEnabled := true, NetworkVisibilityEnabled := true,
    CapabilitiesVisibilityEnabled := true }

/-- Daemon state holding exW4. -/
def dmW4 : DaemonState := ⟨[("c1", exW4)], []⟩

/-- Freshly fetched record with resolved data and none of the metadata. -/
def cW4 : Container :=
  { contDefault with
    ContainerID := "c1", AppArmorProfile := "prof4",
    MergedDir := "/merged", PidNS := 41, MntNS := 42 }

/-- Tracked record for the equal cardinality swap scenario. -/
def contA5 : Container := { contDefault with
    ContainerID := "a", PidNS := 1, MntNS := 1 }

/-- Daemon registry holding contA5. -/
def dmA5 : DaemonState := ⟨[("a", contA5)], []⟩

/-- Monitor state tracking the single ID a while the live set is the
single ID b. -/
def sCex5 : MonitorState := ⟨⟨["a"]⟩, dmA5⟩

/-- Fetch oracle for the swap scenario; never consulted because the
short circuit fires. -/
def fetchNone5 : String → Except GoError Container := fun _ => Except.error "unused"

/-- Monitor state for the short circuit witness. -/
def sW5 : MonitorState := ⟨⟨["x"]⟩, ⟨[], []⟩⟩

/-- Fetch oracle for the short circuit witness. -/
def fetchW5 : String → Except GoError Container := fun _ => Except.error "unused"

/-- Fully resolved stored record for the idempotence scenario. -/
def exW8 : Container := { contDefault with
    ContainerID := "c8", PidNS := 3, MntNS := 4 }

/-- Daemon state holding exW8. -/
def dmW8 : DaemonState := ⟨[("c8", exW8)], []⟩

/-- Duplicate late event record for the same ID. -/
def cW8 : Container := { contDefault with
    ContainerID := "c8", PidNS := 30, MntNS := 40 }

/-- First member container of pod pod9, profile p9. -/
def c1W9 : Container :=
  { contDefault with
    ContainerID := "c1", NamespaceName := "ns9",
    EndPointName := "pod9", AppArmorProfile := "p9", PidNS := 1, MntNS := 2 }

/-- Second member container of pod pod9, sharing the profile p9. -/
def c2W9 : Container :=
  { contDefault with
    ContainerID := "c2", NamespaceName := "ns9",
    EndPointName := "pod9", AppArmorProfile := "p9", PidNS := 3, MntNS := 4 }

/-- Endpoint pod9, both member containers sharing one profile entry
each. -/
def epW9 : EndPoint := ⟨"ns9", "pod9", ["c1", "c2"], ["p9", "p9"]⟩

/-- Daemon state holding both members of pod9. -/
def dmW9 : DaemonState := ⟨[("c1", c1W9), ("c2", c2W9)], [epW9]⟩

/-- Fetched record carrying an empty ContainerID. -/
def contEmptyID : Container := { contDefault with PidNS := 50 }

/-- Stored record with a regular key. -/
def stW10 : Container := { contDefault with
    ContainerID := "c10" }

/-- Daemon state holding stW10, with no empty key. -/
def dmW10 : DaemonState := ⟨[("c10", stW10)], []⟩

theorem mapLookup_mapInsert_self (m : List (String × Container)) (k : String) (v : Container) :
    mapLookup (mapInsert m k v) k = some v := by
  induction m with
  | nil => simp [mapInsert, mapLookup]
  | cons p rest ih =>
    by_cases h : p.1 = k
    · simp [mapInsert, h, mapLookup]
    · simp [mapInsert, h, mapLookup, ih]

theorem mapLookup_mapInsert_ne (m : List (String × Container)) (k k2 : String) (v : Container)
    (h : k2 ≠ k) : mapLookup (mapInsert m k2 v) k = mapLookup m k := by
  induction m with
  | nil => simp [mapInsert, mapLookup, h]
  | cons p rest ih =>
    by_cases h2 : p.1 = k2
    · simp [mapInsert, h2, mapLookup, h]
    · by_cases h3 : p.1 = k <;> simp [mapInsert, h2, mapLookup, h3, ih, Ne.symm h]

theorem mapLookup_mapErase_self (m : List (String × Container)) (k : String) :
    mapLookup (mapErase m k) k = none := by
  induction m with
  | nil => simp [mapErase, mapLookup]
  | cons p rest ih =>
    by_cases h : p.1 = k
    · simp [mapErase, h, ih]
    · simp [mapErase, h, mapLookup, ih]

theorem noEmptyKey_mapInsert (m : List (String × Container)) (k : String) (v : Container)
    (hm : NoEmptyKey m) (hk : k ≠ "") : NoEmptyKey (mapInsert m k v) := by
  induction m with
  | nil => intro p hp; simp [mapInsert] at hp; simp [hp, hk]
  | cons q rest ih =>
    intro p hp
    by_cases h : q.1 = k
    · simp [mapInsert, h] at hp
      rcases hp with hp | hp
      · simp [hp, hk]
      · exact hm p (List.mem_cons_of_mem q hp)
    · simp [mapInsert, h] at hp
      rcases hp with hp | hp
      · exact hm p (by simp [hp])
      · exact ih (fun r hr => hm r (List.mem_cons_of_mem q hr)) p hp

theorem noEmptyKey_mapErase (m : List (String × Container)) (k : String)
    (hm : NoEmptyKey m) : NoEmptyKey (mapErase m k) := by
  induction m with
  | nil => intro p hp; simp [mapErase] at hp
  | cons q rest ih =>
    intro p hp
    by_cases h : q.1 = k
    · simp [mapErase, h] at hp
      exact ih (fun r hr => hm r (List.mem_cons_of_mem q hr)) p hp
    · simp [mapErase, h] at hp
      rcases hp with hp | hp
      · exact hm p (by simp [hp])
      · exact ih (fun r hr => hm r (List.mem_cons_of_mem q hr)) p hp

theorem findMatching_updateFirst (f : EndPoint → EndPoint) (eps : List EndPoint)
    (ns en : String)
    (hf : ∀ ep, (f ep).NamespaceName = ep.NamespaceName ∧ (f ep).EndPointName = ep.EndPointName) :
    findMatchingEndPoint (updateFirstMatching f eps ns en) ns en =
      (findMatchingEndPoint eps ns en).map f := by
  induction eps with
  | nil => simp [updateFirstMatching, findMatchingEndPoint]
  | cons ep rest ih =>
    by_cases h : ep.NamespaceName = ns ∧ ep.EndPointName = en
    · have hcond : (f ep).NamespaceName = ns ∧ (f ep).EndPointName = en :=
        ⟨(hf ep).1.trans h.1, (hf ep).2.trans h.2⟩
      simp [updateFirstMatching, findMatchingEndPoint, h, hcond]
    · simp [updateFirstMatching, findMatchingEndPoint, h, ih]

theorem linkOne_preserves_identity (c : Container) (ep : EndPoint) :
    (linkOne c ep).NamespaceName = ep.NamespaceName ∧
    (linkOne c ep).EndPointName = ep.EndPointName := ⟨rfl, rfl⟩

theorem unlinkOne_preserves_identity (c : Container) (ep : EndPoint) :
    (unlinkOne c ep).NamespaceName = ep.NamespaceName ∧
    (unlinkOne c ep).EndPointName = ep.EndPointName := ⟨rfl, rfl⟩

theorem mem_linkOne_containers (c : Container) (ep : EndPoint) :
    c.ContainerID ∈ (linkOne c ep).Containers := by
  by_cases h : c.ContainerID ∈ ep.Containers <;> simp [linkOne, h]

theorem mem_linkOne_profiles (c : Container) (ep : EndPoint) :
    c.AppArmorProfile ∈ (linkOne c ep).AppArmorProfiles := by
  by_cases h : c.AppArmorProfile ∈ ep.AppArmorProfiles <;> simp [linkOne, h]

/-- C7: for all finite ID sets live and tracked, GetNewCrioContainers
returns live minus tracked and GetDeletedCrioContainers returns tracked
minus live; hence the added set is disjoint from tracked, the removed set
is disjoint from live, and tracked united with the added set minus the
removed set equals live. -/
theorem c7_diff_correctness (live tracked : List String) :
    (GetNewCrioContainers ⟨tracked⟩ live).toFinset = live.toFinset \ tracked.toFinset ∧
    ((GetDeletedCrioContainers ⟨tracked⟩ live).1).toFinset = tracked.toFinset \ live.toFinset ∧
    (GetNewCrioContainers ⟨tracked⟩ live).toFinset ∩ tracked.toFinset = ∅ ∧
    ((GetDeletedCrioContainers ⟨tracked⟩ live).1).toFinset ∩ live.toFinset = ∅ ∧
    (tracked.toFinset ∪ (GetNewCrioContainers ⟨tracked⟩ live).toFinset) \
        ((GetDeletedCrioContainers ⟨tracked⟩ live).1).toFinset = live.toFinset := by
  have h1 : (GetNewCrioContainers ⟨tracked⟩ live).toFinset =
      live.toFinset \ tracked.toFinset := by
    ext x
    simp [GetNewCrioContainers, List.mem_filter]
  have h2 : ((GetDeletedCrioContainers ⟨tracked⟩ live).1).toFinset =
      tracked.toFinset \ live.toFinset := by
    ext x
    simp [GetDeletedCrioContainers, List.mem_filter]
  refine ⟨h1, h2, ?_, ?_, ?_⟩
  all_goals simp only [h1, h2]
  all_goals ext x
  all_goals simp
  all_goals tauto

/-- C6 counterexample: GetDeletedCrioContainers is not stateless; called
on the handler tracking the single ID a with an empty live set, it leaves
the handler tracking the empty set instead of the original one. -/
theorem c6_counterexample :
    (GetDeletedCrioContainers ⟨["a"]⟩ []).2.containers = ([] : List String) ∧
    (GetDeletedCrioContainers ⟨["a"]⟩ []).2.containers ≠ (["a"] : List String) := by
  exact ⟨rfl, by decide⟩

/-- C6 amended: GetNewCrioContainers only reads the handler state and
returns the set difference of live and tracked, but
GetDeletedCrioContainers, besides returning the set difference of tracked
and live, replaces the tracked set of the handler with the live set. -/
theorem c6_amended (ch : CrioHandler) (live : List String) :
    (GetNewCrioContainers ch live).toFinset = live.toFinset \ ch.containers.toFinset ∧
    ((GetDeletedCrioContainers ch live).1).toFinset =
      ch.containers.toFinset \ live.toFinset ∧
    (GetDeletedCrioContainers ch live).2.containers = live := by
  refine ⟨?_, ?_, rfl⟩
  · ext x
    simp [GetNewCrioContainers, List.mem_filter]
  · ext x
    simp [GetDeletedCrioContainers, List.mem_filter]

/-- C3: once the stored record of an ID has a non zero PidNS or a non
zero MntNS, no start path call, whatever record it fetches, changes the
stored PidNS or MntNS of that ID. -/
theorem c3_namespace_write_once (dm : DaemonState) (id : String) (st : Container)
    (hl : mapLookup dm.Containers id = some st)
    (hnz : st.PidNS ≠ 0 ∨ st.MntNS ≠ 0) (fetched : Except GoError Container) :
    ∃ st2, mapLookup (UpdateCrioContainerStart dm fetched).1.Containers id = some st2 ∧
      st2.PidNS = st.PidNS ∧ st2.MntNS = st.MntNS := by
  match fetched with
  | Except.error e => exact ⟨st, hl, rfl, rfl⟩
  | Except.ok c =>
    by_cases hempty : c.ContainerID = ""
    · refine ⟨st, ?_, rfl, rfl⟩
      simp [UpdateCrioContainerStart, hempty, hl]
    · rcases hlc : mapLookup dm.Containers c.ContainerID with _ | ex
      · have hne : c.ContainerID ≠ id := by
          intro h; rw [h, hl] at hlc; cases hlc
        refine ⟨st, ?_, rfl, rfl⟩
        simp [UpdateCrioContainerStart, hempty, hlc,
          mapLookup_mapInsert_ne dm.Containers id c.ContainerID c hne, hl]
      · by_cases hz : ex.PidNS = 0 ∧ ex.MntNS = 0
        · have hne : c.ContainerID ≠ id := by
            intro h; rw [h, hl] at hlc
            injection hlc with h2
            subst h2
            rcases hnz with h3 | h3
            · exact h3 hz.1
            · exact h3 hz.2
          refine ⟨st, ?_, rfl, rfl⟩
          simp [UpdateCrioContainerStart, hempty, hlc, hz,
            mapLookup_mapInsert_ne dm.Containers id c.ContainerID (mergeExisting ex c) hne, hl]
        · refine ⟨st, ?_, rfl, rfl⟩
          simp [UpdateCrioContainerStart, hempty, hlc, hz, hl]

/-- C4: when the stored record of an ID has both namespace fields zero, a
start path call fetching that ID returns true and stores a record keeping
the existing NamespaceName, EndPointName, Labels, ContainerName,
ContainerImage, PolicyEnabled and the four visibility flags while
adopting the fetched AppArmorProfile, MergedDir, PidNS and MntNS. -/
theorem c4_completion_preserves_metadata (dm : DaemonState) (c ex : Container)
    (hid : c.ContainerID ≠ "")
    (hl : mapLookup dm.Containers c.ContainerID = some ex)
    (hp : ex.PidNS = 0) (hm : ex.MntNS = 0) :
    (UpdateCrioContainerStart dm (Except.ok c)).2 = true ∧
    ∃ st, mapLookup (UpdateCrioContainerStart dm (Except.ok c)).1.Containers c.ContainerID =
        some st ∧
      st.NamespaceName = ex.NamespaceName ∧ st.EndPointName = ex.EndPointName ∧
      st.Labels = ex.Labels ∧ st.ContainerName = ex.ContainerName ∧
      st.ContainerImage = ex.ContainerImage ∧ st.PolicyEnabled = ex.PolicyEnabled ∧
      st.ProcessVisibilityEnabled = ex.ProcessVisibilityEnabled ∧
      st.FileVisibilityEnabled = ex.FileVisibilityEnabled ∧
      st.NetworkVisibilityEnabled = ex.NetworkVisibilityEnabled ∧
      st.CapabilitiesVisibilityEnabled = ex.CapabilitiesVisibilityEnabled ∧
      st.AppArmorProfile = c.AppArmorProfile ∧ st.MergedDir = c.MergedDir ∧
      st.PidNS = c.PidNS ∧ st.MntNS = c.MntNS := by
  have hstate : UpdateCrioContainerStart dm (Except.ok c) =
      ({ Containers := mapInsert dm.Containers c.ContainerID (mergeExisting ex c),
         EndPoints := linkEndpoint dm.EndPoints (mergeExisting ex c) }, true) := by
    simp [UpdateCrioContainerStart, hid, hl, hp, hm]
  rw [hstate]
  exact ⟨rfl, mergeExisting ex c, mapLookup_mapInsert_self dm.Containers c.ContainerID _,
    rfl, rfl, rfl, rfl, rfl, rfl, rfl, rfl, rfl, rfl, rfl, rfl, rfl, rfl⟩

/-- C8: a start path call for an ID whose stored record has both
namespace fields non zero returns false and leaves the whole daemon
state, Containers map and EndPoints collection alike, unchanged. -/
theorem c8_resolved_upsert_rejected (dm : DaemonState) (c ex : Container)
    (hl : mapLookup dm.Containers c.ContainerID = some ex)
    (hp : ex.PidNS ≠ 0) (hm : ex.MntNS ≠ 0) :
    UpdateCrioContainerStart dm (Except.ok c) = (dm, false) := by
  have hguard : ¬ (ex.PidNS = 0 ∧ ex.MntNS = 0) := fun hz => hm hz.2
  by_cases hempty : c.ContainerID = ""
  · simp [UpdateCrioContainerStart, hempty]
  · simp [UpdateCrioContainerStart, hempty, hl, hp, hguard]

/-- C9: destroying a tracked ID returns true, removes its record from the
map, and rewrites the first matching endpoint by dropping the first
Containers entry equal to the container ID and the first
AppArmorProfiles entry equal to its profile; removeFirst drops exactly
one occurrence, so a profile entry is dropped even when another member
container still shares the same profile. -/
theorem c9_destroy_first_match (dm : DaemonState) (id : String) (cont : Container)
    (hl : mapLookup dm.Containers id = some cont) :
    (UpdateCrioContainerDestroy dm id).2 = true ∧
    mapLookup (UpdateCrioContainerDestroy dm id).1.Containers id = none ∧
    ∀ ep, findMatchingEndPoint dm.EndPoints cont.NamespaceName cont.EndPointName = some ep →
      findMatchingEndPoint (UpdateCrioContainerDestroy dm id).1.EndPoints
          cont.NamespaceName cont.EndPointName =
        some { ep with
          Containers := removeFirst ep.Containers cont.ContainerID,
          AppArmorProfiles := removeFirst ep.AppArmorProfiles cont.AppArmorProfile } := by
  have hstate : UpdateCrioContainerDestroy dm id =
      ({ Containers := mapErase dm.Containers id,
         EndPoints := unlinkEndpoint dm.EndPoints cont }, true) := by
    simp [UpdateCrioContainerDestroy, hl]
  rw [hstate]
  refine ⟨rfl, mapLookup_mapErase_self dm.Containers id, ?_⟩
  intro ep hep
  show findMatchingEndPoint
      (updateFirstMatching (unlinkOne cont) dm.EndPoints cont.NamespaceName cont.EndPointName)
      cont.NamespaceName cont.EndPointName = _
  rw [findMatching_updateFirst (unlinkOne cont) dm.EndPoints cont.NamespaceName
    cont.EndPointName (unlinkOne_preserves_identity cont), hep]
  rfl

/-- C10: a fetched record with an empty ContainerID is rejected by the
start path with no mutation, and both paths preserve the invariant that
no record of the Containers map is keyed by the empty string. -/
theorem c10_empty_id_rejected (dm : DaemonState) (fetched : Except GoError Container) :
    (∀ c, fetched = Except.ok c → c.ContainerID = "" →
      UpdateCrioContainerStart dm fetched = (dm, false)) ∧
    (NoEmptyKey dm.Containers →
      NoEmptyKey (UpdateCrioContainerStart dm fetched).1.Containers ∧
      ∀ id, NoEmptyKey (UpdateCrioContainerDestroy dm id).1.Containers) := by
  constructor
  · intro c hc hcid
    subst hc
    simp [UpdateCrioContainerStart, hcid]
  · intro hNE
    constructor
    · match fetched with
      | Except.error e => exact hNE
      | Except.ok c =>
        by_cases hempty : c.ContainerID = ""
        · simpa [UpdateCrioContainerStart, hempty] using hNE
        · rcases hlc : mapLookup dm.Containers c.ContainerID with _ | ex
          · simpa [UpdateCrioContainerStart, hempty, hlc] using
              noEmptyKey_mapInsert dm.Containers c.ContainerID c hNE hempty
          · by_cases hz : ex.PidNS = 0 ∧ ex.MntNS = 0
            · simpa [UpdateCrioContainerStart, hempty, hlc, hz] using
                noEmptyKey_mapInsert dm.Containers c.ContainerID (mergeExisting ex c) hNE hempty
            · simpa [UpdateCrioContainerStart, hempty, hlc, hz] using hNE
    · intro id
      rcases hld : mapLookup dm.Containers id with _ | cont
      · simpa [UpdateCrioContainerDestroy, hld] using hNE
      · simpa [UpdateCrioContainerDestroy, hld] using
          noEmptyKey_mapErase dm.Containers id hNE

/-- C1 counterexample: a record whose ID is absent from the map and whose
pod matches the existing endpoint epCex1 is inserted with result true,
yet the endpoint is left untouched: the fresh insert branch of the start
path has no endpoint update, so the ID is not a member of the matching
endpoint Containers list and the profile is not a member of its
AppArmorProfiles list. -/
theorem c1_insert_skips_endpoint_counterexample :
    (UpdateCrioContainerStart dmCex1 (Except.ok contCex1)).2 = true ∧
    findMatchingEndPoint (UpdateCrioContainerStart dmCex1 (Except.ok contCex1)).1.EndPoints
      "default" "pod1" = some epCex1 ∧
    "c1" ∉ epCex1.Containers ∧ "prof1" ∉ epCex1.AppArmorProfiles := by
  refine ⟨rfl, ?_, by simp [epCex1], by simp [epCex1]⟩
  rfl

/-- C1 amended: the endpoint linkage happens on the completion branch,
not on fresh insert: when the ID is already stored with both namespace
fields zero and some endpoint matches the stored pod identity, the start
path returns true and the first matching endpoint afterwards contains the
container ID in Containers and its profile in AppArmorProfiles. -/
theorem c1_completion_links_endpoint (dm : DaemonState) (c ex : Container) (ep : EndPoint)
    (hid : c.ContainerID ≠ "")
    (hl : mapLookup dm.Containers c.ContainerID = some ex)
    (hp : ex.PidNS = 0) (hm : ex.MntNS = 0)
    (hep : findMatchingEndPoint dm.EndPoints ex.NamespaceName ex.EndPointName = some ep) :
    (UpdateCrioContainerStart dm (Except.ok c)).2 = true ∧
    ∃ ep2, findMatchingEndPoint (UpdateCrioContainerStart dm (Except.ok c)).1.EndPoints
        ex.NamespaceName ex.EndPointName = some ep2 ∧
      c.ContainerID ∈ ep2.Containers ∧ c.AppArmorProfile ∈ ep2.AppArmorProfiles := by
  have hstate : UpdateCrioContainerStart dm (Except.ok c) =
      ({ Containers := mapInsert dm.Containers c.ContainerID (mergeExisting ex c),
         EndPoints := linkEndpoint dm.EndPoints (mergeExisting ex c) }, true) := by
    simp [UpdateCrioContainerStart, hid, hl, hp, hm]
  rw [hstate]
  refine ⟨rfl, linkOne (mergeExisting ex c) ep, ?_, ?_, ?_⟩
  · show findMatchingEndPoint
        (updateFirstMatching (linkOne (mergeExisting ex c)) dm.EndPoints
          ex.NamespaceName ex.EndPointName)
        ex.NamespaceName ex.EndPointName = _
    rw [findMatching_updateFirst (linkOne (mergeExisting ex c)) dm.EndPoints
      ex.NamespaceName ex.EndPointName (linkOne_preserves_identity (mergeExisting ex c)), hep]
    rfl
  · exact mem_linkOne_containers (mergeExisting ex c) ep
  · exact mem_linkOne_profiles (mergeExisting ex c) ep

/-- C2: on a failing ListContainers RPC, GetCrioContainers returns a nil
error together with a nil map, because the err bound in the head of the
Go if statement shadows the declared err that the final return reads;
the monitoring cycle therefore never stops on an RPC failure, and with a
non empty tracked set it instead runs a full diff against an empty live
set, evicting every tracked container. -/
theorem c2_rpc_error_swallowed :
    GetCrioContainers (Except.error "connection refused") = (none, none) ∧
    (∀ s fetch, MonitorCycle s (Except.error "connection refused") fetch ≠
      CycleResult.stopped) ∧
    MonitorCycle sC2 (Except.error "connection refused") fetchNone =
      CycleResult.processed ⟨⟨[]⟩, ⟨[], []⟩⟩ := by
  refine ⟨rfl, ?_, ?_⟩
  · intro s fetch
    by_cases h : (0 : ℕ) = s.crio.containers.length <;>
      simp [MonitorCycle, GetCrioContainers, h]
  · rfl

/-- C5 counterexample: with tracked set containing only the ID a and live
set containing only the ID b, the cycle short circuits and leaves the
state unchanged; the immediately following cycle receives the identical
state and live set, so it short circuits again instead of performing the
full diff, and the tracked set never becomes the live set while the
cardinalities stay equal. -/
theorem c5_swap_not_corrected_counterexample :
    MonitorCycle sCex5 (Except.ok ["b"]) fetchNone5 = CycleResult.slept sCex5 ∧
    sCex5.crio.containers.toFinset ≠ (["b"] : List String).toFinset := by
  refine ⟨rfl, ?_⟩
  intro h
  have : "a" ∈ (["b"] : List String).toFinset := by
    rw [show (["b"] : List String).toFinset = sCex5.crio.containers.toFinset from h.symm]
    simp [sCex5]
  simp at this

/-- C5 amended: whenever the live cardinality equals the tracked
cardinality the cycle takes the short circuit and returns the state
unchanged, whatever the content of the two sets; an equal cardinality
content difference is therefore not corrected on the following cycle, but
only once the cardinalities differ. -/
theorem c5_equal_card_short_circuit (s : MonitorState) (live : List String)
    (fetch : String → Except GoError Container)
    (h : live.dedup.length = s.crio.containers.length) :
    MonitorCycle s (Except.ok live) fetch = CycleResult.slept s := by
  simp [MonitorCycle, GetCrioContainers, h]

/-- Witness for C1 amended: completing the stored record exW1 in dmW1
satisfies every hypothesis, returns true, and afterwards the matching
endpoint lists the container ID c1 and the profile prof1. -/
theorem c1_completion_links_endpoint_witness :
    (cW1.ContainerID ≠ "" ∧ mapLookup dmW1.Containers cW1.ContainerID = some exW1 ∧
      exW1.PidNS = 0 ∧ exW1.MntNS = 0 ∧
      findMatchingEndPoint dmW1.EndPoints exW1.NamespaceName exW1.EndPointName = some epW1) ∧
    (UpdateCrioContainerStart dmW1 (Except.ok cW1)).2 = true ∧
    "c1" ∈ ((findMatchingEndPoint (UpdateCrioContainerStart dmW1 (Except.ok cW1)).1.EndPoints
        "default" "pod1").getD epW1).Containers ∧
    "prof1" ∈ ((findMatchingEndPoint (UpdateCrioContainerStart dmW1 (Except.ok cW1)).1.EndPoints
        "default" "pod1").getD epW1).AppArmorProfiles := by
  have h := c1_completion_links_endpoint dmW1 cW1 exW1 epW1 (by decide) (by decide)
    (by decide) (by decide) (by decide)
  obtain ⟨ep2, heq, hmem, hmem2⟩ := h.2
  have heq2 : findMatchingEndPoint (UpdateCrioContainerStart dmW1 (Except.ok cW1)).1.EndPoints
      "default" "pod1" = some ep2 := heq
  refine ⟨⟨by decide, by decide, by decide, by decide, by decide⟩, h.1, ?_, ?_⟩
  · rw [heq2]
    exact hmem
  · rw [heq2]
    exact hmem2

/-- Witness for C3: the record stored under c1 in dmW3 has PidNS 5 and
MntNS 6; after a start path call fetching cW3, which carries PidNS 9 and
MntNS 10, the stored namespace identifiers still read 5 and 6. -/
theorem c3_namespace_write_once_witness :
    (mapLookup dmW3.Containers "c1" = some stW3 ∧ stW3.PidNS ≠ 0) ∧
    (mapLookup (UpdateCrioContainerStart dmW3 (Except.ok cW3)).1.Containers "c1").map
      Container.PidNS = some 5 ∧
    (mapLookup (UpdateCrioContainerStart dmW3 (Except.ok cW3)).1.Containers "c1").map
      Container.MntNS = some 6 := by
  obtain ⟨st2, hl2, hp2, hm2⟩ :=
    c3_namespace_write_once dmW3 "c1" stW3 (by decide) (Or.inl (by decide)) (Except.ok cW3)
  refine ⟨⟨by decide, by decide⟩, ?_, ?_⟩
  · rw [hl2]
    simp [hp2, stW3, contDefault]
  · rw [hl2]
    simp [hm2, stW3, contDefault]

/-- Witness for C4: completing the stored record exW4 with the fetched
record cW4 keeps the metadata of exW4 and adopts the resolved fields of
cW4. -/
theorem c4_completion_preserves_metadata_witness :
    (cW4.ContainerID ≠ "" ∧ mapLookup dmW4.Containers cW4.ContainerID = some exW4 ∧
      exW4.PidNS = 0 ∧ exW4.MntNS = 0) ∧
    (UpdateCrioContainerStart dmW4 (Except.ok cW4)).2 = true ∧
    (mapLookup (UpdateCrioContainerStart dmW4 (Except.ok cW4)).1.Containers "c1").map
      Container.Labels = some "app=web" ∧
    (mapLookup (UpdateCrioContainerStart dmW4 (Except.ok cW4)).1.Containers "c1").map
      Container.PolicyEnabled = some 1 ∧
    (mapLookup (UpdateCrioContainerStart dmW4 (Except.ok cW4)).1.Containers "c1").map
      Container.AppArmorProfile = some "prof4" ∧
    (mapLookup (UpdateCrioContainerStart dmW4 (Except.ok cW4)).1.Containers "c1").map
      Container.PidNS = some 41 := by
  have h := c4_completion_preserves_metadata dmW4 cW4 exW4 (by decide) (by decide)
    (by decide) (by decide)
  obtain ⟨st, hl, hns, hen, hlab, hname, himg, hpol, hpv, hfv, hnv, hcv, hprof, hdir, hpid, hmnt⟩ :=
    h.2
  have hl2 : mapLookup (UpdateCrioContainerStart dmW4 (Except.ok cW4)).1.Containers "c1" =
      some st := hl
  refine ⟨⟨by decide, by decide, by decide, by decide⟩, h.1, ?_, ?_, ?_, ?_⟩
  · rw [hl2]
    simp [hlab, exW4, contDefault]
  · rw [hl2]
    simp [hpol, exW4, contDefault]
  · rw [hl2]
    simp [hprof, cW4, contDefault]
  · rw [hl2]
    simp [hpid, cW4, contDefault]

/-- Witness for C5 amended: tracking the single ID x while the live list
is the single ID y, the cardinalities agree and the cycle short circuits,
returning the state unchanged. -/
theorem c5_equal_card_short_circuit_witness :
    ((["y"] : List String).dedup.length = sW5.crio.containers.length) ∧
    MonitorCycle sW5 (Except.ok ["y"]) fetchW5 = CycleResult.slept sW5 :=
  ⟨by decide, c5_equal_card_short_circuit sW5 ["y"] fetchW5 (by decide)⟩

/-- Witness for C8: the stored record exW8 has PidNS 3 and MntNS 4; a
second start path call fetching cW8 for the same ID returns false and
leaves the daemon state unchanged. -/
theorem c8_resolved_upsert_rejected_witness :
    (mapLookup dmW8.Containers cW8.ContainerID = some exW8 ∧
      exW8.PidNS ≠ 0 ∧ exW8.MntNS ≠ 0) ∧
    UpdateCrioContainerStart dmW8 (Except.ok cW8) = (dmW8, false) :=
  ⟨⟨by decide, by decide, by decide⟩,
    c8_resolved_upsert_rejected dmW8 cW8 exW8 (by decide) (by decide) (by decide)⟩

/-- Witness for C9: destroying c1 in dmW9 removes its record and rewrites
the endpoint pod9 to Containers c2 and AppArmorProfiles p9: one of the
two shared p9 entries is dropped although the still stored container c2
uses the same profile. -/
theorem c9_destroy_first_match_witness :
    (mapLookup dmW9.Containers "c1" = some c1W9 ∧
      findMatchingEndPoint dmW9.EndPoints c1W9.NamespaceName c1W9.EndPointName = some epW9) ∧
    (UpdateCrioContainerDestroy dmW9 "c1").2 = true ∧
    mapLookup (UpdateCrioContainerDestroy dmW9 "c1").1.Containers "c1" = none ∧
    findMatchingEndPoint (UpdateCrioContainerDestroy dmW9 "c1").1.EndPoints "ns9" "pod9" =
      some ⟨"ns9", "pod9", ["c2"], ["p9"]⟩ := by
  have h := c9_destroy_first_match dmW9 "c1" c1W9 (by decide)
  have h3 := h.2.2 epW9 (by decide)
  exact ⟨⟨by decide, by decide⟩, h.1, h.2.1, h3.trans (by decide)⟩

/-- Witness for C10: the fetched record contEmptyID has an empty ID and
is rejected without mutation, and both paths keep dmW10 free of an empty
key. -/
theorem c10_empty_id_rejected_witness :
    (contEmptyID.ContainerID = "" ∧ NoEmptyKey dmW10.Containers) ∧
    UpdateCrioContainerStart dmW10 (Except.ok contEmptyID) = (dmW10, false) ∧
    NoEmptyKey (UpdateCrioContainerStart dmW10 (Except.ok contEmptyID)).1.Containers ∧
    NoEmptyKey (UpdateCrioContainerDestroy dmW10 "c10").1.Containers := by
  have h := c10_empty_id_rejected dmW10 (Except.ok contEmptyID)
  exact ⟨⟨rfl, by decide⟩, h.1 contEmptyID rfl rfl, (h.2 (by decide)).1, (h.2 (by decide)).2 "c10"⟩

end Crio
